import Mathlib

/-!
Shallow embedding of the `state-manager` Rust crate (`src/lib.rs`,
`src/error.rs`).

The crate wraps a single optional value in `Arc<RwLock<Option<T>>>`.
`StateManager::new_state` allocates that storage and returns the handle
(`State<T>`) together with a setter closure capturing a clone of the same
`Arc`.  `Getter::get` reads under the shared lock and returns `None::<T>`
when the lock is poisoned; the setter overwrites the guarded value
wholesale under the exclusive lock and returns
`Err(StateError::Default("Lock error"))` when the lock is poisoned.

We model the contents of one `RwLock<Option<T>>` as a cell carrying the
stored `Option T` together with the lock's poison flag (the only failure
mode of `read`/`write` on `std::sync::RwLock`), and the heap of separately
allocated slots as a list of cells addressed by `Nat` handles: cloning an
`Arc` copies an address, never the cell behind it.
-/

namespace StateManagerSpec

/-- `StateError` from `src/error.rs`: variants `MismatchedTypes()` and
`Default(String)`. -/
inductive StateError where
  | MismatchedTypes : StateError
  | Default : String → StateError
  deriving DecidableEq

/-- The contents of one `RwLock<Option<T>>` together with its poison flag:
`value` is the guarded `Option<T>`, `poisoned` records whether a prior
holder panicked while holding the lock (the only way `self.read()` or
`state_for_setter.write()` can return `Err`). -/
structure RwLockCell (T : Type) where
  value : Option T
  poisoned : Bool
  deriving DecidableEq

/-- `Getter::get` for `State<T>` (`src/lib.rs`, `impl Getter for State<T>`):
`self.read()` succeeds exactly when the lock is not poisoned and the method
returns a clone of the guarded `Option<T>`; on `Err(_)` it returns
`None::<T>`. -/
def get {T : Type} (cell : RwLockCell T) : Option T :=
  if cell.poisoned then none else cell.value

/-- The setter closure built inside `new_state` (`src/lib.rs`):
`state_for_setter.write()` succeeds exactly when the lock is not poisoned;
on success the guard is overwritten wholesale (`*state_guard = data`) and
the call returns `Ok(())`; on failure the closure returns
`Err(StateError::Default(String::from("Lock error")))` and nothing is
written. -/
def setter {T : Type} (cell : RwLockCell T) (data : Option T) :
    RwLockCell T × Except StateError Unit :=
  if cell.poisoned then (cell, .error (.Default "Lock error"))
  else ({ cell with value := data }, .ok ())

/-- The storage built by `StateManager::new_state` (`src/lib.rs`): `data`
is matched, and each branch builds `Arc::new(RwLock::new(...))` holding
exactly the matched contents (`Some(value)` resp. `None`); a freshly
constructed `RwLock` is not poisoned. -/
def new_state {T : Type} (data : Option T) : RwLockCell T :=
  match data with
  | some value => { value := some value, poisoned := false }
  | none => { value := none, poisoned := false }

/-- The heap of separately allocated slots: each call to `new_state`
executes `Arc::new`, creating one fresh cell; a handle (any clone of the
`Arc`) is the address of its cell in this heap. -/
abbrev Store (T : Type) := List (RwLockCell T)

/-- A handle to a slot: the address of its cell in the heap. -/
abbrev Handle := Nat

/-- `Arc::clone` applied to a handle (`state.clone()` in the tests and in
`new_state` itself): it duplicates the address; the cell is shared, never
copied. -/
def cloneHandle (h : Handle) : Handle := h

/-- Allocating view of `StateManager::new_state`: the fresh cell is placed
at a fresh address at the end of the heap; the returned handle `state` and
the clone `state_for_setter` captured by the setter closure are the same
address. -/
def new_state_alloc {T : Type} (store : Store T) (data : Option T) :
    Store T × Handle :=
  (store ++ [new_state data], store.length)

/-- `Getter::get` invoked through a handle: it reads the cell at the
handle's address.  (A handle produced by `new_state_alloc` always points
at an existing cell; the `none` branch is unreachable for such handles.) -/
def getAt {T : Type} (store : Store T) (h : Handle) : Option T :=
  match store[h]? with
  | some cell => get cell
  | none => none

/-- The setter closure invoked through its captured address: it runs
`setter` on the cell at that address and stores the updated cell back,
returning the closure's `Result<(), StateError>`.  (For a handle produced
by `new_state_alloc` the `none` branch is unreachable.) -/
def setAt {T : Type} (store : Store T) (h : Handle) (data : Option T) :
    Store T × Except StateError Unit :=
  match store[h]? with
  | some cell => (store.set h (setter cell data).1, (setter cell data).2)
  | none => (store, .error (.Default "Lock error"))

/-- A sequence of setter calls issued sequentially from a single thread:
each call threads the cell left by the previous one. -/
def setMany {T : Type} (cell : RwLockCell T) (vs : List (Option T)) :
    RwLockCell T :=
  vs.foldl (fun c v => (setter c v).1) cell

/-! ### Helper lemmas -/

theorem setMany_unpoisoned {T : Type} (a : Option T) (vs : List (Option T)) :
    setMany ⟨a, false⟩ vs = ⟨vs.getLastD a, false⟩ := by
  induction vs generalizing a with
  | nil => rfl
  | cons v vs ih =>
      have hstep : setMany (⟨a, false⟩ : RwLockCell T) (v :: vs) =
          setMany ⟨v, false⟩ vs := by
        simp [setMany, setter]
      rw [hstep, ih, List.getLastD_cons]

theorem getAt_setAt_ne {T : Type} (store : Store T) (i j : Handle)
    (v : Option T) (hij : i ≠ j) :
    getAt (setAt store i v).1 j = getAt store j := by
  unfold setAt
  cases hc : store[i]? with
  | none => rfl
  | some cell => simp [getAt, List.getElem?_set_ne hij]

/-! ### Claims -/

/-- C1: for any sequence of setter calls `set(v1), ..., set(vn)` issued
sequentially from a single thread on an unpoisoned slot, a subsequent
`get` returns exactly `vn`: `Some(vn)` when `vn` is present, `None` when
`vn` is empty. -/
theorem set_sequence_then_get {T : Type} (cell : RwLockCell T)
    (vs : List (Option T)) (hp : cell.poisoned = false) (hne : vs ≠ []) :
    get (setMany cell vs) = vs.getLast hne := by
  obtain ⟨a, p⟩ := cell
  subst hp
  rw [setMany_unpoisoned]
  show vs.getLastD a = vs.getLast hne
  rw [List.getLastD_eq_getLast?, List.getLast?_eq_getLast vs hne]
  rfl

theorem set_sequence_then_get_witness :
    get (setMany (⟨some 0, false⟩ : RwLockCell Nat) [some 1, none, some 2]) =
      some 2 := by
  have h := set_sequence_then_get (⟨some 0, false⟩ : RwLockCell Nat)
      [some 1, none, some 2] rfl (by decide)
  exact h.trans (by rfl)

/-- C2: constructing a slot via `new_state(initial)` and immediately
reading it via `get` returns exactly the initial state: `new_state(Some(v))`
then `get()` yields `Some(v)`, and `new_state(None)` then `get()` yields
`None`. -/
theorem new_state_round_trip {T : Type} (data : Option T) :
    get (new_state data) = data := by
  cases data <;> rfl

theorem new_state_round_trip_witness :
    get (new_state (some 42)) = some 42 ∧
      get (new_state (none : Option Nat)) = none :=
  ⟨new_state_round_trip (some 42), new_state_round_trip (none : Option Nat)⟩

/-- C3: every successful call to `set(new_value)` replaces the slot's
entire logical state wholesale with `new_value`, regardless of the prior
state, with no merging or partial update. -/
theorem set_full_replace {T : Type} (cell : RwLockCell T) (data : Option T)
    (hok : (setter cell data).2 = .ok ()) :
    (setter cell data).1.value = data ∧
      (setter cell data).1.poisoned = cell.poisoned := by
  by_cases hp : cell.poisoned
  · simp [setter, hp] at hok
  · simp [setter, hp]

theorem set_full_replace_witness :
    (setter (⟨some 1, false⟩ : RwLockCell Nat) none).1.value = none :=
  (set_full_replace (⟨some 1, false⟩ : RwLockCell Nat) none rfl).1

/-- C4: the setter returns `Ok` exactly when the write lock is acquired
(the lock is not poisoned), returns the lock-error value
`StateError::Default("Lock error")` exactly when the lock is poisoned, and
never returns `StateError::MismatchedTypes`. -/
theorem setter_result_spec {T : Type} (cell : RwLockCell T)
    (data : Option T) :
    ((setter cell data).2 = .ok () ↔ cell.poisoned = false) ∧
      ((setter cell data).2 = .error (StateError.Default "Lock error") ↔
        cell.poisoned = true) ∧
      (setter cell data).2 ≠ .error StateError.MismatchedTypes := by
  by_cases hp : cell.poisoned <;> simp [setter, hp]

theorem setter_result_spec_witness :
    (setter (⟨none, true⟩ : RwLockCell Nat) (some 7)).2 =
      .error (StateError.Default "Lock error") :=
  ((setter_result_spec (⟨none, true⟩ : RwLockCell Nat) (some 7)).2.1).mpr rfl

/-- C5: `get` never surfaces an error: when the read lock is poisoned,
`get` returns `None` instead of propagating a failure, for every payload
type and every stored value. -/
theorem get_poisoned_returns_none {T : Type} (cell : RwLockCell T)
    (hp : cell.poisoned = true) : get cell = none := by
  simp [get, hp]

theorem get_poisoned_returns_none_witness :
    get (⟨some 3, true⟩ : RwLockCell Nat) = none :=
  get_poisoned_returns_none (⟨some 3, true⟩ : RwLockCell Nat) rfl

/-- C6: the handle and the setter returned by one `new_state` call
reference the same underlying storage: a write performed through the
setter is visible to a subsequent read on the original handle and on every
handle cloned from it. -/
theorem write_visible_to_handles {T : Type} (store s1 s2 : Store T)
    (h : Handle) (data v : Option T)
    (hnew : new_state_alloc store data = (s1, h))
    (hset : setAt s1 h v = (s2, .ok ())) :
    getAt s2 h = v ∧ getAt s2 (cloneHandle h) = v := by
  obtain ⟨hs1, hh⟩ := Prod.mk.injEq .. ▸ hnew
  subst hs1
  subst hh
  have hcell : (store ++ [new_state data])[store.length]? =
      some (new_state data) :=
    List.getElem?_concat_length store (new_state data)
  have hlen : store.length < (store ++ [new_state data]).length := by
    simp
  have hstep : setAt (store ++ [new_state data]) store.length v =
      ((store ++ [new_state data]).set store.length ⟨v, false⟩, .ok ()) := by
    unfold setAt
    rw [hcell]
    cases data <;> rfl
  have hs2 : s2 = (store ++ [new_state data]).set store.length ⟨v, false⟩ :=
    congrArg Prod.fst (hset.symm.trans hstep)
  subst hs2
  constructor
  · simp [getAt, List.getElem?_set_self hlen, get]
  · simp [cloneHandle, getAt, List.getElem?_set_self hlen, get]

theorem write_visible_to_handles_witness :
    getAt [(⟨some 2, false⟩ : RwLockCell Nat)] 0 = some 2 := by
  have h := write_visible_to_handles ([] : Store Nat)
      [⟨some 1, false⟩] [⟨some 2, false⟩] 0 (some 1) (some 2) rfl rfl
  exact h.1

/-- C7: each `new_state` call produces fresh, independently owned storage:
for two slots created by separate calls, writing through either slot's
setter leaves the other slot's state, as observed by its `get`,
unchanged; the two handles are distinct addresses. -/
theorem slots_independent {T : Type} (store s1 s2 : Store T)
    (h1 h2 : Handle) (d1 d2 v w : Option T)
    (hn1 : new_state_alloc store d1 = (s1, h1))
    (hn2 : new_state_alloc s1 d2 = (s2, h2)) :
    h1 ≠ h2 ∧ getAt (setAt s2 h2 v).1 h1 = getAt s2 h1 ∧
      getAt (setAt s2 h1 w).1 h2 = getAt s2 h2 := by
  obtain ⟨hs1, hh1⟩ := Prod.mk.injEq .. ▸ hn1
  obtain ⟨hs2, hh2⟩ := Prod.mk.injEq .. ▸ hn2
  subst hs1
  subst hh1
  subst hs2
  subst hh2
  have hne : store.length ≠ (store ++ [new_state d1]).length := by
    simp
  exact ⟨hne, getAt_setAt_ne _ _ _ v hne.symm, getAt_setAt_ne _ _ _ w hne⟩

theorem slots_independent_witness :
    getAt (setAt [(⟨some 1, false⟩ : RwLockCell Nat), ⟨some 2, false⟩]
      1 none).1 0 = some 1 := by
  have h := slots_independent ([] : Store Nat) [⟨some 1, false⟩]
      [⟨some 1, false⟩, ⟨some 2, false⟩] 0 1 (some 1) (some 2) none none
      rfl rfl
  exact h.2.1.trans (by rfl)

/-- C8: failed writes are atomic: whenever the setter returns an error
(the lock-failure branch), the slot's state is left unchanged. -/
theorem failed_set_leaves_state {T : Type} (cell : RwLockCell T)
    (data : Option T) (e : StateError)
    (herr : (setter cell data).2 = .error e) :
    (setter cell data).1 = cell := by
  by_cases hp : cell.poisoned
  · simp [setter, hp]
  · simp [setter, hp] at herr

theorem failed_set_leaves_state_witness :
    (setter (⟨some 1, true⟩ : RwLockCell Nat) none).1 = ⟨some 1, true⟩ :=
  failed_set_leaves_state (⟨some 1, true⟩ : RwLockCell Nat) none
    (.Default "Lock error") rfl

/-- C9: although `new_state` constrains the payload type to provide a
default value, that default is never stored: after `new_state(None)` the
slot holds explicit absence, so `get` returns `None` and never
`Some(default())`. -/
theorem default_value_never_stored {T : Type} [Inhabited T] :
    get (new_state (none : Option T)) = none ∧
      get (new_state (none : Option T)) ≠ some (default : T) := by
  exact ⟨rfl, by simp [get, new_state]⟩

theorem default_value_never_stored_witness :
    get (new_state (none : Option Nat)) = none :=
  (default_value_never_stored (T := Nat)).1

/-- C10: the setter is idempotent: for every optional value `x` and every
unpoisoned slot, calling `set(x)` twice in immediate succession leaves the
slot in the same final state as calling it once, and both calls return
`Ok`. -/
theorem setter_idempotent {T : Type} (cell : RwLockCell T) (x : Option T)
    (hp : cell.poisoned = false) :
    (setter (setter cell x).1 x).1 = (setter cell x).1 ∧
      (setter cell x).2 = .ok () ∧
      (setter (setter cell x).1 x).2 = .ok () := by
  obtain ⟨a, p⟩ := cell
  subst hp
  simp [setter]

theorem setter_idempotent_witness :
    (setter (setter (⟨none, false⟩ : RwLockCell Nat) (some 5)).1
      (some 5)).1 = (setter (⟨none, false⟩ : RwLockCell Nat) (some 5)).1 :=
  (setter_idempotent (⟨none, false⟩ : RwLockCell Nat) (some 5) rfl).1

end StateManagerSpec
